import Mathlib

/-!
# Verification of the WebRTC negotiation core of `watch-party-vite`

Shallow embedding of the negotiation core implemented by the React hook
`useWebRTC` in `src/src/modules/video/useWebRTC.ts` (the SFU variant, which
is the one every claim's code citation points at), together with the small
pieces of the P2P variants (`src/src/modules/video/useWebRTC-P2P.ts`) needed
for the politeness/initiator claims.

The hook's mutable refs and React state are collected into one record,
`HookState`.  Each handler of the source becomes a pure Lean function
`HookState → … → HookState × List Action`: the returned action list records
the externally visible side effects (messages sent over the signaling
channel, descriptions applied to the `RTCPeerConnection`, tracks stopped,
reconnection timers scheduled) in the order the source performs them.
`await`-ed browser operations that can throw (`setRemoteDescription`,
`createOffer`, …) are modelled with an explicit failure-injection parameter
selecting which operation (if any) throws; the `catch` blocks of the source
are then translated literally.
-/

namespace WatchParty

/-- A media track of a `MediaStream`: its `kind` (`"audio"` / `"video"`),
its `enabled` property and whether it has been stopped
(`readyState !== 'live'`). -/
structure Track where
  kind : String
  enabled : Bool
  stopped : Bool
  deriving DecidableEq, Repr

/-- An `RTCSessionDescriptionInit`: the `type` field (`"offer"`, `"answer"`,
`"rollback"`) plus an opaque SDP payload. -/
structure SessionDesc where
  type : String
  sdp : Nat
  deriving DecidableEq, Repr

/-- The slice of an `RTCPeerConnection` the hook observes and mutates:
signaling state, the two descriptions, the connection state string, the
candidates successfully applied via `addIceCandidate`, and the ICE
gathering state. -/
structure PeerConn where
  signalingState : String
  remoteDescription : Option SessionDesc
  localDescription : Option SessionDesc
  connectionState : String
  appliedCandidates : List Nat
  deriving DecidableEq, Repr

/-- The `ConnectionState` enum of the hook. -/
inductive ConnState where
  | idle
  | connecting
  | connected
  | reconnecting
  | disconnected
  | failed
  deriving DecidableEq, Repr

/-- Externally visible side effects, recorded in the order the source
performs them. -/
inductive Action where
  | rollback
  | setRemoteDesc (d : SessionDesc)
  | applyCandidate (c : Nat)
  | sendOffer
  | sendAnswer
  | waitIce (resolveMs : Nat)
  | closePC
  | stopTrack (kind : String)
  | scheduleReconnect (delayMs : Nat)
  deriving DecidableEq, Repr

/-- The state of one `useWebRTC` hook instance: the React refs
(`peerConnectionRef`, `iceCandidateBufferRef`, `isNegotiatingRef`,
`makingOfferRef`, `ignoreOfferRef`, `isPolitePeerRef`,
`reconnectAttemptsRef`, `connectionAttemptedRef`) and the React state
(`connectionState`, `error`, `localStream`, `remoteStreams`,
`isAudioMuted`, `hasVideoTrack`), plus whether a `wsClient` is present. -/
structure HookState where
  peerConnection : Option PeerConn
  iceCandidateBuffer : List Nat
  isNegotiating : Bool
  makingOffer : Bool
  ignoreOffer : Bool
  isPolitePeer : Bool
  reconnectAttempts : Nat
  connectionAttempted : Bool
  connectionState : ConnState
  error : Option String
  localStream : Option (List Track)
  remoteStreams : List Nat
  isAudioMuted : Bool
  hasVideoTrack : Bool
  wsClient : Bool
  deriving DecidableEq, Repr

/-- `const maxReconnectAttempts = 5`. -/
def maxReconnectAttempts : Nat := 5

/-- `const MAX_ICE_CANDIDATES = 50`. -/
def MAX_ICE_CANDIDATES : Nat := 50

/-- The buffering branch of `handleICECandidate`: drop the oldest entry
(`Array.prototype.shift`) when the buffer is at capacity, then append
(`push`) the new candidate. -/
def bufferPush (buf : List Nat) (c : Nat) : List Nat :=
  (if MAX_ICE_CANDIDATES ≤ buf.length then buf.tail else buf) ++ [c]

/-- `pc.addIceCandidate(new RTCIceCandidate(candidate))`: succeeds or
throws, according to the injected `ok` flag. -/
def addIceCandidate (pc : PeerConn) (c : Nat) (ok : Bool) :
    Except String PeerConn :=
  if ok then .ok { pc with appliedCandidates := pc.appliedCandidates ++ [c] }
  else .error "Failed to add ICE candidate"

/-- `handleICECandidate` of `useWebRTC.ts`: if there is no peer connection
or no remote description, buffer the candidate (dropping the oldest at
capacity 50); otherwise apply it, swallowing any error from
`addIceCandidate` (the `catch` only logs). -/
def handleICECandidate (s : HookState) (c : Nat) (ok : Bool) :
    HookState × List Action :=
  match s.peerConnection with
  | none =>
    ({ s with iceCandidateBuffer := bufferPush s.iceCandidateBuffer c }, [])
  | some pc =>
    if pc.remoteDescription.isNone then
      ({ s with iceCandidateBuffer := bufferPush s.iceCandidateBuffer c }, [])
    else
      match addIceCandidate pc c ok with
      | .ok pc1 => ({ s with peerConnection := some pc1 }, [.applyCandidate c])
      | .error _ => (s, [])

/-- Feed a sequence of `ice-candidate` messages to the handler, in order,
with every `addIceCandidate` succeeding. -/
def feedCandidates (cs : List Nat) (s : HookState) : HookState :=
  cs.foldl (fun s c => (handleICECandidate s c true).1) s

/-- A hook state with no peer connection and everything at its initial
value. -/
def initialState : HookState where
  peerConnection := none
  iceCandidateBuffer := []
  isNegotiating := false
  makingOffer := false
  ignoreOffer := false
  isPolitePeer := true
  reconnectAttempts := 0
  connectionAttempted := false
  connectionState := .idle
  error := none
  localStream := none
  remoteStreams := []
  isAudioMuted := false
  hasVideoTrack := false
  wsClient := true

/-- Effect of `pc.setRemoteDescription(new RTCSessionDescription(d))` on the
peer connection (standard WebRTC signaling-state semantics). -/
def applySetRemote (pc : PeerConn) (d : SessionDesc) : PeerConn :=
  { pc with
    remoteDescription := some d
    signalingState := if d.type == "offer" then "have-remote-offer" else "stable" }

/-- Effect of `pc.setLocalDescription({ type: 'rollback' })`: the in-flight
local description is discarded and the signaling state returns to
`stable`. -/
def applyRollback (pc : PeerConn) : PeerConn :=
  { pc with localDescription := none, signalingState := "stable" }

/-- `handleAnswer` of `useWebRTC.ts`: bail out if no peer connection exists;
otherwise clear the ICE candidate buffer, set the remote description, then
drain the buffer (empty at that point, so nothing is applied).  The `catch`
sets the error string only.  `ok` injects whether `setRemoteDescription`
succeeds. -/
def handleAnswer (s : HookState) (answer : SessionDesc) (ok : Bool) :
    HookState × List Action :=
  match s.peerConnection with
  | none => (s, [])
  | some pc =>
    let s1 := { s with iceCandidateBuffer := [] }
    if ok then
      ({ s1 with peerConnection := some (applySetRemote pc answer) },
        [.setRemoteDesc answer])
    else
      ({ s1 with error := some "Failed to handle answer" }, [])

/-- Which `await`-ed operation of `handleIncomingOffer`'s `try` block throws
(if any). -/
inductive OfferFail where
  | rollback
  | setRemote
  | createAnswer
  | setLocalAnswer
  deriving DecidableEq, Repr

/-- `handleIncomingOffer` of `useWebRTC.ts` (Perfect Negotiation): bail out
if no peer connection; compute `offerCollision` and `ignoreOffer`; return
with no side effects when ignoring; otherwise (inside `try`) roll back the
local description when the collision is handled politely, clear the ICE
candidate buffer, set the remote description, drain the (now empty) buffer,
create an answer, set it locally and send it when a `wsClient` exists.
The `catch` only logs.  `fail` injects which operation (if any) throws. -/
def handleIncomingOffer (s : HookState) (offer : SessionDesc)
    (fail : Option OfferFail) : HookState × List Action :=
  match s.peerConnection with
  | none => (s, [])
  | some pc =>
    let isPolite := s.isPolitePeer
    let offerCollision :=
      offer.type == "offer" && (s.makingOffer || pc.signalingState != "stable")
    let s1 := { s with ignoreOffer := !isPolite && offerCollision }
    if !isPolite && offerCollision then
      (s1, [])
    else
      let doRollback := offerCollision && isPolite
      if doRollback && fail == some .rollback then
        (s1, [])
      else
        let pc1 := if doRollback then applyRollback pc else pc
        let acts1 : List Action := if doRollback then [.rollback] else []
        let s2 := { s1 with peerConnection := some pc1, iceCandidateBuffer := [] }
        if fail == some .setRemote then
          (s2, acts1)
        else
          let pc2 := applySetRemote pc1 offer
          let s3 := { s2 with peerConnection := some pc2 }
          if fail == some .createAnswer || fail == some .setLocalAnswer then
            (s3, acts1 ++ [.setRemoteDesc offer])
          else
            let answer : SessionDesc := { type := "answer", sdp := 0 }
            let pc3 := { pc2 with
              localDescription := some answer, signalingState := "stable" }
            let s4 := { s3 with peerConnection := some pc3 }
            if s.wsClient then
              (s4, acts1 ++ [.setRemoteDesc offer, .sendAnswer])
            else
              (s4, acts1 ++ [.setRemoteDesc offer])

/-- `reconnectWithBackoff` of `useWebRTC.ts` (up to the scheduled retry
itself): at the attempt cap, transition to terminal `failed` with a
user-visible error and schedule nothing; below the cap, compute
`min(1000 * 2^attempt, 16000)`, bump the counter, enter `reconnecting` and
schedule the retry after that delay. -/
def reconnectWithBackoff (s : HookState) : HookState × List Action :=
  if maxReconnectAttempts ≤ s.reconnectAttempts then
    ({ s with
        connectionState := .failed
        error := some "Connection failed after multiple attempts. Please refresh." },
      [])
  else
    let delay := min (1000 * 2 ^ s.reconnectAttempts) 16000
    ({ s with
        reconnectAttempts := s.reconnectAttempts + 1
        connectionState := .reconnecting },
      [.scheduleReconnect delay])

/-- The `pc.onconnectionstatechange` handler of `useWebRTC.ts`, as a
function of the reported `pc.connectionState` string.  (`disconnected`
additionally schedules an ICE-restart check after 2s, which is outside the
claims and not recorded.) -/
def onConnectionStateChange (s : HookState) (pcState : String) :
    HookState × List Action :=
  if pcState == "connected" then
    ({ s with connectionState := .connected, error := none, reconnectAttempts := 0 }, [])
  else if pcState == "disconnected" then
    ({ s with connectionState := .disconnected }, [])
  else if pcState == "failed" then
    reconnectWithBackoff { s with
      connectionState := .failed
      error := some "Connection failed. Reconnecting..." }
  else if pcState == "closed" then
    ({ s with connectionState := .idle }, [])
  else
    (s, [])

/-- `cleanupConnection(keepLocalStream = false)` of `useWebRTC.ts`: close
the peer connection if it exists, reset the buffer and negotiation flags,
clear the remote streams, go to `idle`, clear the error, and — unless
`keepLocalStream` — stop every local track and drop the local stream. -/
def cleanupConnection (keepLocalStream : Bool) (s : HookState) :
    HookState × List Action :=
  let closeActs : List Action :=
    match s.peerConnection with
    | some _ => [.closePC]
    | none => []
  let s1 := { s with
    peerConnection := none
    iceCandidateBuffer := []
    isNegotiating := false
    makingOffer := false
    ignoreOffer := false
    remoteStreams := []
    connectionState := ConnState.idle
    error := none }
  match keepLocalStream, s.localStream with
  | false, some tracks =>
    ({ s1 with localStream := none },
      closeActs ++ tracks.map (fun t => Action.stopTrack t.kind))
  | _, _ => (s1, closeActs)

/-- `reconnect` of `useWebRTC.ts` (manual reconnect): call
`cleanupConnection()` — note: with its default `keepLocalStream = false` —
then reset the attempt counter and the connection-attempted flag and clear
the error. -/
def reconnect (s : HookState) : HookState × List Action :=
  let r := cleanupConnection false s
  ({ r.1 with
      reconnectAttempts := 0
      connectionAttempted := false
      error := none },
    r.2)

/-- Drive the `onconnectionstatechange` handler with `n` consecutive
`failed` reports, collecting the actions each report emits. -/
def runTransportFailures : Nat → HookState → HookState × List (List Action)
  | 0, s => (s, [])
  | n + 1, s =>
    let r := onConnectionStateChange s "failed"
    let rest := runTransportFailures n r.1
    (rest.1, r.2 :: rest.2)

/-- `localStream.getAudioTracks()[0].enabled = e`: set `enabled` on the
first audio track of the stream, leaving every other track untouched. -/
def setFirstAudioEnabled (tracks : List Track) (e : Bool) : List Track :=
  match tracks with
  | [] => []
  | t :: rest =>
    if t.kind == "audio" then { t with enabled := e } :: rest
    else t :: setFirstAudioEnabled rest e

/-- `localStream.getAudioTracks()[0]`. -/
def firstAudioTrack (tracks : List Track) : Option Track :=
  tracks.find? (fun t => t.kind == "audio")

/-- `muteAudio` of `useWebRTC.ts`: no-op without a local stream or an audio
track; otherwise set `enabled = false` on the audio track and
`isAudioMuted = true`.  No peer-connection operation, no message. -/
def muteAudio (s : HookState) : HookState × List Action :=
  match s.localStream with
  | none => (s, [])
  | some tracks =>
    match firstAudioTrack tracks with
    | none => (s, [])
    | some _ =>
      ({ s with
          localStream := some (setFirstAudioEnabled tracks false)
          isAudioMuted := true }, [])

/-- `unmuteAudio` of `useWebRTC.ts`: the mirror image of `muteAudio`. -/
def unmuteAudio (s : HookState) : HookState × List Action :=
  match s.localStream with
  | none => (s, [])
  | some tracks =>
    match firstAudioTrack tracks with
    | none => (s, [])
    | some _ =>
      ({ s with
          localStream := some (setFirstAudioEnabled tracks true)
          isAudioMuted := false }, [])

/-- `toggleAudio` of `useWebRTC.ts`. -/
def toggleAudio (s : HookState) : HookState × List Action :=
  if s.isAudioMuted then unmuteAudio s else muteAudio s

/-- The time (ms from the call) at which the promise returned by
`waitForIceGathering(pc, timeoutMs)` resolves, given the time at which the
connection's ICE gathering reaches `complete` (`none` = never during the
wait): the `icegatheringstatechange` listener resolves at completion, and
the `setTimeout` fallback resolves at `timeoutMs` — whichever comes
first. -/
def waitForIceGatheringResolveMs (completeAt : Option Nat) (timeoutMs : Nat) : Nat :=
  match completeAt with
  | none => timeoutMs
  | some t => min t timeoutMs

/-- Which `await`-ed operation of `startConnection`'s `try` block throws
(if any).  `nullLocalDesc` models the explicit
`throw new Error('Local description is null after ICE gathering')` guard. -/
inductive StartFail where
  | media
  | createOffer
  | setLocalOffer
  | nullLocalDesc
  deriving DecidableEq, Repr

/-- `startConnection` re-acquires the stream when there is none, it has no
tracks, or some track is not `live`. -/
def needsNewStream (s : HookState) : Bool :=
  match s.localStream with
  | none => true
  | some tracks => tracks.isEmpty || tracks.any (fun t => t.stopped)

/-- The audio-only stream produced by `initializeLocalStream`. -/
def freshAudioStream : List Track := [{ kind := "audio", enabled := true, stopped := false }]

/-- The `catch` block of `startConnection`: set `failed` and the error,
then `cleanupConnection()` (default `keepLocalStream = false`, which resets
the state to `idle`, clears the error again and stops the local tracks). -/
def startConnectionCatch (s : HookState) (msg : String) : HookState × List Action :=
  cleanupConnection false { s with connectionState := .failed, error := some msg }

/-- The `try` block of `startConnection` of `useWebRTC.ts`: enter
`connecting`, clear the error, (re)acquire the local stream if needed,
create the peer connection with the local tracks attached, set
`makingOffer`, create and set the local offer, wait for ICE gathering
(default timeout 5000 ms), clear `makingOffer`, then send the complete
offer.  `completeAt` is the time at which ICE gathering completes;
`fail` injects which operation (if any) throws. -/
def startConnectionTry (s : HookState) (completeAt : Option Nat)
    (fail : Option StartFail) : HookState × List Action :=
  let s1 := { s with connectionState := ConnState.connecting, error := none }
  if needsNewStream s1 && fail == some .media then
    startConnectionCatch s1 "Failed to access media"
  else
    let stream := if needsNewStream s1 then freshAudioStream
                  else s1.localStream.getD []
    let pc0 : PeerConn := {
      signalingState := "stable"
      remoteDescription := none
      localDescription := none
      connectionState := "new"
      appliedCandidates := [] }
    let s2 := { s1 with localStream := some stream, peerConnection := some pc0 }
    let s3 := { s2 with makingOffer := true }
    if fail == some .createOffer then
      startConnectionCatch s3 "Failed to start connection"
    else
      let offer : SessionDesc := { type := "offer", sdp := 0 }
      if fail == some .setLocalOffer then
        startConnectionCatch s3 "Failed to start connection"
      else
        let pc1 := { pc0 with
          localDescription := some offer, signalingState := "have-local-offer" }
        let s4 := { s3 with peerConnection := some pc1 }
        let waitMs := waitForIceGatheringResolveMs completeAt 5000
        let s5 := { s4 with makingOffer := false }
        if fail == some .nullLocalDesc then
          let r := startConnectionCatch s5 "Local description is null after ICE gathering"
          (r.1, Action.waitIce waitMs :: r.2)
        else
          (s5, [Action.waitIce waitMs, Action.sendOffer])

/-- `startConnection` of `useWebRTC.ts`: bail out without a `wsClient`; mark
the connection attempted; bail out when already `connecting`; when a peer
connection exists, bail out if it is already `connected` and clean it up
(keeping the local stream) when it is `disconnected`/`failed`/`closed`;
then run the `try` block. -/
def startConnection (s : HookState) (completeAt : Option Nat)
    (fail : Option StartFail) : HookState × List Action :=
  if s.wsClient = false then (s, [])
  else
    let s1 := { s with connectionAttempted := true }
    if s1.connectionState = ConnState.connecting then (s1, [])
    else
      match s1.peerConnection with
      | some pc =>
        if pc.connectionState == "connected" then (s1, [])
        else if pc.connectionState == "disconnected"
            || pc.connectionState == "failed"
            || pc.connectionState == "closed" then
          let r := cleanupConnection true s1
          let r2 := startConnectionTry r.1 completeAt fail
          (r2.1, r.2 ++ r2.2)
        else
          startConnectionTry s1 completeAt fail
      | none => startConnectionTry s1 completeAt fail

/-- JavaScript `<` on two character sequences: lexicographic comparison by
code unit, a strictly shorter prefix being smaller. -/
def jsLtList : List Char → List Char → Bool
  | [], [] => false
  | [], _ :: _ => true
  | _ :: _, [] => false
  | a :: as, b :: bs =>
    if a.toNat = b.toNat then jsLtList as bs else decide (a.toNat < b.toNat)

/-- JavaScript `a < b` on strings. -/
def jsLt (a b : String) : Bool := jsLtList a.data b.data

/-- The politeness flag of the SFU hook, as a function of the two
participant identifiers: `isPolitePeerRef = useRef(true)` — the client is
always polite toward the SFU, for every pair of identifiers, and the ref is
never reassigned. -/
def isPolitePeer (_selfId _remoteId : String) : Bool := true

/-- `startConnection` of `useWebRTC-P2P.ts`, line 214:
`const shouldInitiate = userId > partnerId` — the lexicographically greater
identifier initiates. -/
def shouldInitiate (userId partnerId : String) : Bool :=
  jsLt partnerId userId

/-- `useSimplePeer` (third hook variant), `startConnection`:
`const initiator = userId < partner.userId` — the lexicographically smaller
identifier initiates. -/
def simplePeerInitiator (userId partnerId : String) : Bool :=
  jsLt userId partnerId

/-! ## Helper lemmas -/

theorem jsLtList_asymm : ∀ as bs, jsLtList as bs = true → jsLtList bs as = false
  | [], [], h => by simp [jsLtList] at h
  | [], _ :: _, _ => by simp [jsLtList]
  | _ :: _, [], h => by simp [jsLtList] at h
  | a :: as, b :: bs, h => by
    simp only [jsLtList] at h ⊢
    by_cases hab : a.toNat = b.toNat
    · simp [hab] at h ⊢
      exact jsLtList_asymm as bs h
    · simp [hab, Ne.symm hab] at h ⊢
      omega

theorem jsLtList_total : ∀ as bs, as ≠ bs →
    jsLtList as bs = true ∨ jsLtList bs as = true
  | [], [], h => absurd rfl h
  | [], _ :: _, _ => Or.inl (by simp [jsLtList])
  | _ :: _, [], _ => Or.inr (by simp [jsLtList])
  | a :: as, b :: bs, h => by
    by_cases hab : a.toNat = b.toNat
    · have hab' : a = b := Char.ext (UInt32.ext hab)
      subst hab'
      have hne : as ≠ bs := fun hh => h (by rw [hh])
      rcases jsLtList_total as bs hne with h1 | h1
      · exact Or.inl (by simp [jsLtList, h1])
      · exact Or.inr (by simp [jsLtList, h1])
    · rcases Nat.lt_or_ge a.toNat b.toNat with h1 | h1
      · exact Or.inl (by simp [jsLtList, hab, h1])
      · have h2 : b.toNat < a.toNat := by omega
        exact Or.inr (by simp [jsLtList, Ne.symm hab, h2])

theorem jsLt_asymm_of_ne (a b : String) (h : a ≠ b) : jsLt a b = !jsLt b a := by
  have hd : a.data ≠ b.data := fun hh => h (by
    cases a; cases b; exact congrArg String.mk hh)
  rcases jsLtList_total a.data b.data hd with h1 | h1
  · rw [jsLt, jsLt, h1, jsLtList_asymm _ _ h1]; rfl
  · rw [jsLt, jsLt, jsLtList_asymm _ _ h1, h1]; rfl

/-! ## Claims -/

/-- **C2** counterexample: the claim asserts `isPolite(A,B) = !isPolite(B,A)`
for distinct identifiers, derived lexicographically; but the SFU hook fixes
`isPolitePeerRef` to `true` for every pair, so at `A = "alice"`,
`B = "bob"` both directions are polite. -/
theorem C2_counterexample :
    ¬ (("alice" : String) ≠ "bob" →
        isPolitePeer "alice" "bob" = !isPolitePeer "bob" "alice") := by
  decide

/-- **C2** (amended): the SFU hook's `isPolite` flag is the constant `true`
for every pair of identifiers (and the ref is never reassigned, so it is
stable); the deterministic lexicographic tie-break instead governs the
initiator role of the P2P variants: `shouldInitiate(A,B) = (A > B)` and the
SimplePeer variant's `initiator(A,B) = (A < B)`, each antisymmetric for
distinct identifiers. -/
theorem C2_politeness_and_initiator :
    (∀ a b : String, isPolitePeer a b = true) ∧
    (∀ a b : String, a ≠ b → shouldInitiate a b = !shouldInitiate b a) ∧
    (∀ a b : String, a ≠ b → simplePeerInitiator a b = !simplePeerInitiator b a) := by
  refine ⟨fun _ _ => rfl, fun a b h => ?_, fun a b h => ?_⟩
  · exact jsLt_asymm_of_ne b a (Ne.symm h)
  · exact jsLt_asymm_of_ne a b h

/-- **C2** witness: the amended theorem at the concrete identifiers
`"alice"` and `"bob"`. -/
theorem C2_witness :
    isPolitePeer "alice" "bob" = true ∧
    shouldInitiate "alice" "bob" = !shouldInitiate "bob" "alice" ∧
    simplePeerInitiator "alice" "bob" = !simplePeerInitiator "bob" "alice" :=
  ⟨C2_politeness_and_initiator.1 "alice" "bob",
   C2_politeness_and_initiator.2.1 "alice" "bob" (by decide),
   C2_politeness_and_initiator.2.2 "alice" "bob" (by decide)⟩

/-- A peer connection that has a remote description set. -/
def samplePCWithRemote : PeerConn where
  signalingState := "stable"
  remoteDescription := some { type := "offer", sdp := 1 }
  localDescription := some { type := "answer", sdp := 2 }
  connectionState := "connected"
  appliedCandidates := []

/-- A hook state whose peer connection has a remote description set. -/
def sampleStateWithRemote : HookState :=
  { initialState with peerConnection := some samplePCWithRemote }

set_option maxRecDepth 40000

/-- **C4**: on a received `ice-candidate` message, if a remote description
is set the candidate is applied to the connection immediately; otherwise it
is appended to the buffer, dropping the oldest entry first when the buffer
already holds 50; and feeding 60 candidates with no remote description set
leaves the buffer holding exactly the 50 most recent candidates in arrival
order (the oldest 10 dropped). -/
theorem C4_candidate_buffer_policy :
    (∀ s c pc, s.peerConnection = some pc → pc.remoteDescription.isSome →
      (handleICECandidate s c true).1.peerConnection
          = some { pc with appliedCandidates := pc.appliedCandidates ++ [c] } ∧
      (handleICECandidate s c true).2 = [Action.applyCandidate c] ∧
      (handleICECandidate s c true).1.iceCandidateBuffer = s.iceCandidateBuffer) ∧
    (∀ s c ok, (∀ pc, s.peerConnection = some pc → pc.remoteDescription = none) →
      (handleICECandidate s c ok).1.iceCandidateBuffer
        = (if MAX_ICE_CANDIDATES ≤ s.iceCandidateBuffer.length
            then s.iceCandidateBuffer.tail
            else s.iceCandidateBuffer) ++ [c]) ∧
    (feedCandidates (List.range 60) initialState).iceCandidateBuffer
        = (List.range 60).drop 10 := by
  refine ⟨fun s c pc hpc hrd => ?_, fun s c ok hnone => ?_, by decide⟩
  · have hrd' : ¬ pc.remoteDescription.isNone := by
      cases h : pc.remoteDescription <;> simp [h] at hrd ⊢
    simp [handleICECandidate, hpc, hrd', addIceCandidate]
  · match hpc : s.peerConnection with
    | none => simp [handleICECandidate, hpc, bufferPush]
    | some pc =>
      have : pc.remoteDescription = none := hnone pc hpc
      simp [handleICECandidate, hpc, this, bufferPush]

/-- **C4** witness: the immediate-apply branch at a concrete state with a
remote description, and the buffering branch at the initial state. -/
theorem C4_witness :
    (handleICECandidate sampleStateWithRemote 7 true).2 = [Action.applyCandidate 7] ∧
    (handleICECandidate initialState 7 true).1.iceCandidateBuffer = [7] := by
  constructor
  · exact (C4_candidate_buffer_policy.1 sampleStateWithRemote 7 samplePCWithRemote
      rfl (by decide)).2.1
  · have := C4_candidate_buffer_policy.2.1 initialState 7 true
      (fun pc h => by simp [initialState] at h)
    simpa [initialState, MAX_ICE_CANDIDATES] using this

/-- **C10**: `handleICECandidate` never lets an error escape: the connection
state and the error string are untouched on every path; when no peer
connection or no remote description exists the candidate is buffered;
when `addIceCandidate` throws, the error is caught and swallowed, leaving
the entire hook state (buffer included) unchanged and emitting nothing. -/
theorem C10_handleICECandidate_is_total :
    (∀ s c ok,
      (handleICECandidate s c ok).1.connectionState = s.connectionState ∧
      (handleICECandidate s c ok).1.error = s.error) ∧
    (∀ s c ok, (∀ pc, s.peerConnection = some pc → pc.remoteDescription = none) →
      (handleICECandidate s c ok).1.iceCandidateBuffer
        = bufferPush s.iceCandidateBuffer c ∧
      (handleICECandidate s c ok).2 = []) ∧
    (∀ s c pc, s.peerConnection = some pc → pc.remoteDescription.isSome →
      handleICECandidate s c false = (s, [])) := by
  refine ⟨fun s c ok => ?_, fun s c ok hnone => ?_, fun s c pc hpc hrd => ?_⟩
  · match hpc : s.peerConnection with
    | none => simp [handleICECandidate, hpc]
    | some pc =>
      by_cases h : pc.remoteDescription.isNone
      · simp [handleICECandidate, hpc, h]
      · cases ok <;> simp [handleICECandidate, hpc, h, addIceCandidate]
  · match hpc : s.peerConnection with
    | none => simp [handleICECandidate, hpc]
    | some pc =>
      have : pc.remoteDescription = none := hnone pc hpc
      simp [handleICECandidate, hpc, this]
  · have hrd' : ¬ pc.remoteDescription.isNone := by
      cases h : pc.remoteDescription <;> simp [h] at hrd ⊢
    simp [handleICECandidate, hpc, hrd', addIceCandidate]

/-- **C10** witness: the swallowed-failure branch at a concrete state, and
the buffering branch at the initial state. -/
theorem C10_witness :
    handleICECandidate sampleStateWithRemote 3 false = (sampleStateWithRemote, []) ∧
    (handleICECandidate initialState 3 true).2 = [] :=
  ⟨C10_handleICECandidate_is_total.2.2 sampleStateWithRemote 3 samplePCWithRemote
      rfl (by decide),
   (C10_handleICECandidate_is_total.2.1 initialState 3 true
      (fun pc h => by simp [initialState] at h)).2⟩

/-- **C5**: a transport `failed` report below the attempt cap schedules a
reconnection after `min(1000·2^attempt, 16000)` ms (so 1000, 2000, 4000,
8000, 16000 ms for attempts 0–4) and enters `reconnecting`; at the cap (5)
it transitions to terminal `failed` with a user-visible error and schedules
nothing; a transport `connected` report resets the attempt counter to 0;
and six consecutive scripted failures produce exactly the five delays then
the terminal transition. -/
theorem C5_backoff_schedule :
    (∀ s, s.reconnectAttempts < maxReconnectAttempts →
      onConnectionStateChange s "failed" =
        ({ s with
            connectionState := .reconnecting
            error := some "Connection failed. Reconnecting..."
            reconnectAttempts := s.reconnectAttempts + 1 },
          [.scheduleReconnect (min (1000 * 2 ^ s.reconnectAttempts) 16000)])) ∧
    ((List.range 5).map (fun k => min (1000 * 2 ^ k) 16000)
        = [1000, 2000, 4000, 8000, 16000]) ∧
    (∀ s, maxReconnectAttempts ≤ s.reconnectAttempts →
      onConnectionStateChange s "failed" =
        ({ s with
            connectionState := .failed
            error := some "Connection failed after multiple attempts. Please refresh." },
          [])) ∧
    (∀ s, (onConnectionStateChange s "connected").1.reconnectAttempts = 0) ∧
    ((runTransportFailures 6 initialState).2 =
      [[.scheduleReconnect 1000], [.scheduleReconnect 2000], [.scheduleReconnect 4000],
       [.scheduleReconnect 8000], [.scheduleReconnect 16000], []] ∧
     (runTransportFailures 6 initialState).1.connectionState = .failed) := by
  refine ⟨fun s h => ?_, by decide, fun s h => ?_, fun s => ?_, by decide, by decide⟩
  · have h' : ¬ maxReconnectAttempts ≤ s.reconnectAttempts := by omega
    simp [onConnectionStateChange, reconnectWithBackoff, h']
  · simp [onConnectionStateChange, reconnectWithBackoff, h]
  · simp [onConnectionStateChange]

/-- **C5** witness: the below-cap branch at attempt 0 and the at-cap branch
at attempt 5, on concrete states. -/
theorem C5_witness :
    (onConnectionStateChange initialState "failed").2 = [.scheduleReconnect 1000] ∧
    (onConnectionStateChange { initialState with reconnectAttempts := 5 } "failed").1.connectionState
      = .failed := by
  constructor
  · rw [C5_backoff_schedule.1 initialState (by decide)]; decide
  · rw [C5_backoff_schedule.2.2.1 { initialState with reconnectAttempts := 5 } (by decide)]

/-- **C1**: on an `offer` message with an existing peer connection,
`offerCollision = (type == offer) && (makingOffer || signalingState ≠
stable)` and `ignoreOffer = !isPolite && offerCollision`; when ignoring,
the handler returns with no action and no state change other than
`ignoreOffer`; otherwise, on a polite collision with no failure, it rolls
back the local description, then sets the incoming offer as the remote
description, then creates and sends an answer — in that order. -/
theorem C1_offer_collision_handling :
    ∀ s offer fail pc, s.peerConnection = some pc →
    ((handleIncomingOffer s offer fail).1.ignoreOffer
        = (!s.isPolitePeer
            && (offer.type == "offer"
                && (s.makingOffer || pc.signalingState != "stable")))) ∧
    ((!s.isPolitePeer
        && (offer.type == "offer"
            && (s.makingOffer || pc.signalingState != "stable"))) = true →
      handleIncomingOffer s offer fail = ({ s with ignoreOffer := true }, [])) ∧
    ((offer.type == "offer"
        && (s.makingOffer || pc.signalingState != "stable")) = true →
      s.isPolitePeer = true → s.wsClient = true → fail = none →
      (handleIncomingOffer s offer fail).2
          = [Action.rollback, Action.setRemoteDesc offer, Action.sendAnswer] ∧
      (handleIncomingOffer s offer fail).1.peerConnection
          = some { applySetRemote (applyRollback pc) offer with
                    localDescription := some { type := "answer", sdp := 0 }
                    signalingState := "stable" } ∧
      (handleIncomingOffer s offer fail).1.iceCandidateBuffer = []) := by
  intro s offer fail pc hpc
  refine ⟨?_, ?_, ?_⟩
  · rcases fail with _ | (_ | _ | _ | _) <;>
      cases hp : s.isPolitePeer <;>
      cases hcol : (offer.type == "offer"
        && (s.makingOffer || pc.signalingState != "stable")) <;>
      cases hws : s.wsClient <;>
      simp [handleIncomingOffer, hpc, hp, hcol, hws]
  · intro hIgn
    simp [handleIncomingOffer, hpc, hIgn]
  · intro hcol hpol hws hfail
    subst hfail
    have hnig : (!s.isPolitePeer
        && (offer.type == "offer"
            && (s.makingOffer || pc.signalingState != "stable"))) = false := by
      simp [hpol]
    simp [handleIncomingOffer, hpc, hcol, hpol, hws, hnig]

/-- **C1** witness: a polite peer receiving a colliding offer while
`makingOffer` is set rolls back, applies the offer and answers; and an
impolite peer in the same situation ignores it. -/
theorem C1_witness :
    (handleIncomingOffer
        { sampleStateWithRemote with makingOffer := true }
        { type := "offer", sdp := 9 } none).2
      = [Action.rollback, Action.setRemoteDesc { type := "offer", sdp := 9 },
         Action.sendAnswer] ∧
    handleIncomingOffer
        { sampleStateWithRemote with makingOffer := true, isPolitePeer := false }
        { type := "offer", sdp := 9 } none
      = ({ sampleStateWithRemote with
            makingOffer := true, isPolitePeer := false, ignoreOffer := true }, []) := by
  constructor
  · exact ((C1_offer_collision_handling
      { sampleStateWithRemote with makingOffer := true }
      { type := "offer", sdp := 9 } none samplePCWithRemote rfl).2.2
      (by decide) rfl rfl rfl).1
  · exact (C1_offer_collision_handling
      { sampleStateWithRemote with makingOffer := true, isPolitePeer := false }
      { type := "offer", sdp := 9 } none samplePCWithRemote rfl).2.1 (by decide)

/-- **C3**: on receipt of an `answer` and on receipt of an `offer` (when a
peer connection exists), the ICE candidate buffer is discarded — no
buffered candidate is ever applied to the connection (`appliedCandidates`
is unchanged, no `applyCandidate` action) — and whenever the incoming
description is set as the remote description the resulting buffer is
empty. -/
theorem C3_buffer_cleared_not_replayed :
    (∀ s answer ok pc, s.peerConnection = some pc →
      (handleAnswer s answer ok).1.iceCandidateBuffer = [] ∧
      (∀ c, Action.applyCandidate c ∉ (handleAnswer s answer ok).2) ∧
      ∀ pc', (handleAnswer s answer ok).1.peerConnection = some pc' →
        pc'.appliedCandidates = pc.appliedCandidates) ∧
    (∀ s offer fail pc, s.peerConnection = some pc →
      (∀ c, Action.applyCandidate c ∉ (handleIncomingOffer s offer fail).2) ∧
      (Action.setRemoteDesc offer ∈ (handleIncomingOffer s offer fail).2 →
        (handleIncomingOffer s offer fail).1.iceCandidateBuffer = []) ∧
      ∀ pc', (handleIncomingOffer s offer fail).1.peerConnection = some pc' →
        pc'.appliedCandidates = pc.appliedCandidates) := by
  constructor
  · intro s answer ok pc hpc
    cases ok <;> simp [handleAnswer, hpc, applySetRemote]
  · intro s offer fail pc hpc
    simp only [handleIncomingOffer, hpc]
    split
    · simp
    · split
      · simp
      · split
        · split <;> simp_all [applyRollback]
        · split
          · split <;> simp_all [applySetRemote, applyRollback]
          · split <;> split <;>
              simp_all [applySetRemote, applyRollback]

/-- **C3** witness: an answer arriving with three candidates buffered
discards them all — the buffer empties, nothing is applied. -/
theorem C3_witness :
    (handleAnswer { sampleStateWithRemote with iceCandidateBuffer := [1, 2, 3] }
        { type := "answer", sdp := 4 } true).1.iceCandidateBuffer = [] ∧
    Action.applyCandidate 1 ∉
      (handleAnswer { sampleStateWithRemote with iceCandidateBuffer := [1, 2, 3] }
        { type := "answer", sdp := 4 } true).2 := by
  have h := C3_buffer_cleared_not_replayed.1
    { sampleStateWithRemote with iceCandidateBuffer := [1, 2, 3] }
    { type := "answer", sdp := 4 } true samplePCWithRemote rfl
  exact ⟨h.1, h.2.1 1⟩

theorem setFirstAudioEnabled_kinds : ∀ (ts : List Track) (e : Bool),
    (setFirstAudioEnabled ts e).map Track.kind = ts.map Track.kind
  | [], _ => rfl
  | t :: rest, e => by
    by_cases hk : t.kind == "audio" <;>
      simp [setFirstAudioEnabled, hk, setFirstAudioEnabled_kinds rest e]

theorem firstAudioTrack_setFirstAudioEnabled (ts : List Track) (e : Bool) :
    (firstAudioTrack (setFirstAudioEnabled ts e)).isSome
      = (firstAudioTrack ts).isSome := by
  induction ts with
  | nil => rfl
  | cons t rest ih =>
    by_cases hk : t.kind == "audio" <;>
      simp [setFirstAudioEnabled, firstAudioTrack, List.find?, hk] at ih ⊢
    simpa using ih

theorem muteAudio_frame (s : HookState) :
    (muteAudio s).2 = [] ∧
    (muteAudio s).1.connectionState = s.connectionState ∧
    (muteAudio s).1.peerConnection = s.peerConnection ∧
    (muteAudio s).1.makingOffer = s.makingOffer ∧
    (muteAudio s).1.localStream.map (fun ts => ts.map Track.kind)
      = s.localStream.map (fun ts => ts.map Track.kind) := by
  unfold muteAudio
  cases hls : s.localStream with
  | none => simp [hls]
  | some ts =>
    cases hfa : firstAudioTrack ts with
    | none => simp [hls, hfa]
    | some t => simp [hls, hfa, setFirstAudioEnabled_kinds]

theorem unmuteAudio_frame (s : HookState) :
    (unmuteAudio s).2 = [] ∧
    (unmuteAudio s).1.connectionState = s.connectionState ∧
    (unmuteAudio s).1.peerConnection = s.peerConnection ∧
    (unmuteAudio s).1.makingOffer = s.makingOffer ∧
    (unmuteAudio s).1.localStream.map (fun ts => ts.map Track.kind)
      = s.localStream.map (fun ts => ts.map Track.kind) := by
  unfold unmuteAudio
  cases hls : s.localStream with
  | none => simp [hls]
  | some ts =>
    cases hfa : firstAudioTrack ts with
    | none => simp [hls, hfa]
    | some t => simp [hls, hfa, setFirstAudioEnabled_kinds]

theorem toggleAudio_frame (s : HookState) :
    (toggleAudio s).2 = [] ∧
    (toggleAudio s).1.connectionState = s.connectionState ∧
    (toggleAudio s).1.peerConnection = s.peerConnection ∧
    (toggleAudio s).1.makingOffer = s.makingOffer ∧
    (toggleAudio s).1.localStream.map (fun ts => ts.map Track.kind)
      = s.localStream.map (fun ts => ts.map Track.kind) := by
  unfold toggleAudio
  cases s.isAudioMuted
  · exact muteAudio_frame s
  · exact unmuteAudio_frame s

theorem muteAudio_of_none {s : HookState} (h : s.localStream = none) :
    muteAudio s = (s, []) := by
  simp [muteAudio, h]

theorem muteAudio_of_noAudio {s : HookState} {ts : List Track}
    (h : s.localStream = some ts) (h2 : firstAudioTrack ts = none) :
    muteAudio s = (s, []) := by
  simp [muteAudio, h, h2]

theorem muteAudio_of_audio {s : HookState} {ts : List Track} {t : Track}
    (h : s.localStream = some ts) (h2 : firstAudioTrack ts = some t) :
    muteAudio s
      = ({ s with localStream := some (setFirstAudioEnabled ts false),
                  isAudioMuted := true }, []) := by
  simp [muteAudio, h, h2]

theorem unmuteAudio_of_none {s : HookState} (h : s.localStream = none) :
    unmuteAudio s = (s, []) := by
  simp [unmuteAudio, h]

theorem unmuteAudio_of_noAudio {s : HookState} {ts : List Track}
    (h : s.localStream = some ts) (h2 : firstAudioTrack ts = none) :
    unmuteAudio s = (s, []) := by
  simp [unmuteAudio, h, h2]

theorem unmuteAudio_of_audio {s : HookState} {ts : List Track} {t : Track}
    (h : s.localStream = some ts) (h2 : firstAudioTrack ts = some t) :
    unmuteAudio s
      = ({ s with localStream := some (setFirstAudioEnabled ts true),
                  isAudioMuted := false }, []) := by
  simp [unmuteAudio, h, h2]

theorem toggleAudio_twice_isAudioMuted (s : HookState) :
    (toggleAudio (toggleAudio s).1).1.isAudioMuted = s.isAudioMuted := by
  cases hm : s.isAudioMuted
  · have h1 : toggleAudio s = muteAudio s := by simp [toggleAudio, hm]
    rw [h1]
    cases hls : s.localStream with
    | none =>
      rw [muteAudio_of_none hls]
      simp [toggleAudio, hm, muteAudio_of_none hls]
    | some ts =>
      cases hfa : firstAudioTrack ts with
      | none =>
        rw [muteAudio_of_noAudio hls hfa]
        simp [toggleAudio, hm, muteAudio_of_noAudio hls hfa]
      | some t =>
        rw [muteAudio_of_audio hls hfa]
        have h2 : toggleAudio
            ({ s with localStream := some (setFirstAudioEnabled ts false),
                      isAudioMuted := true }, ([] : List Action)).1
            = unmuteAudio
                { s with localStream := some (setFirstAudioEnabled ts false),
                         isAudioMuted := true } := by
          simp [toggleAudio]
        rw [h2]
        have hsome : (firstAudioTrack (setFirstAudioEnabled ts false)).isSome = true := by
          rw [firstAudioTrack_setFirstAudioEnabled, hfa]; rfl
        obtain ⟨t2, hfa2⟩ := Option.isSome_iff_exists.mp hsome
        rw [unmuteAudio_of_audio rfl hfa2]
  · have h1 : toggleAudio s = unmuteAudio s := by simp [toggleAudio, hm]
    rw [h1]
    cases hls : s.localStream with
    | none =>
      rw [unmuteAudio_of_none hls]
      simp [toggleAudio, hm, unmuteAudio_of_none hls]
    | some ts =>
      cases hfa : firstAudioTrack ts with
      | none =>
        rw [unmuteAudio_of_noAudio hls hfa]
        simp [toggleAudio, hm, unmuteAudio_of_noAudio hls hfa]
      | some t =>
        rw [unmuteAudio_of_audio hls hfa]
        have h2 : toggleAudio
            ({ s with localStream := some (setFirstAudioEnabled ts true),
                      isAudioMuted := false }, ([] : List Action)).1
            = muteAudio
                { s with localStream := some (setFirstAudioEnabled ts true),
                         isAudioMuted := false } := by
          simp [toggleAudio]
        rw [h2]
        have hsome : (firstAudioTrack (setFirstAudioEnabled ts true)).isSome = true := by
          rw [firstAudioTrack_setFirstAudioEnabled, hfa]; rfl
        obtain ⟨t2, hfa2⟩ := Option.isSome_iff_exists.mp hsome
        rw [muteAudio_of_audio rfl hfa2]

/-- **C6**: `muteAudio`/`unmuteAudio`/`toggleAudio` are local no-signaling
operations: they emit no message or negotiation action, keep the peer
connection and `connectionState` untouched, never remove a track
(track kinds of the local stream are preserved), and toggling twice
restores the original mute flag while `connectionState` never changes. -/
theorem C6_mute_is_non_disruptive :
    ∀ s : HookState,
      ((muteAudio s).2 = [] ∧ (unmuteAudio s).2 = [] ∧ (toggleAudio s).2 = []) ∧
      ((muteAudio s).1.connectionState = s.connectionState ∧
        (unmuteAudio s).1.connectionState = s.connectionState ∧
        (toggleAudio s).1.connectionState = s.connectionState) ∧
      ((muteAudio s).1.peerConnection = s.peerConnection ∧
        (unmuteAudio s).1.peerConnection = s.peerConnection ∧
        (toggleAudio s).1.peerConnection = s.peerConnection) ∧
      ((muteAudio s).1.makingOffer = s.makingOffer ∧
        (unmuteAudio s).1.makingOffer = s.makingOffer ∧
        (toggleAudio s).1.makingOffer = s.makingOffer) ∧
      ((muteAudio s).1.localStream.map (fun ts => ts.map Track.kind)
          = s.localStream.map (fun ts => ts.map Track.kind) ∧
        (unmuteAudio s).1.localStream.map (fun ts => ts.map Track.kind)
          = s.localStream.map (fun ts => ts.map Track.kind) ∧
        (toggleAudio s).1.localStream.map (fun ts => ts.map Track.kind)
          = s.localStream.map (fun ts => ts.map Track.kind)) ∧
      ((toggleAudio (toggleAudio s).1).1.isAudioMuted = s.isAudioMuted ∧
        (toggleAudio (toggleAudio s).1).1.connectionState = s.connectionState) := by
  intro s
  have hm := muteAudio_frame s
  have hu := unmuteAudio_frame s
  have ht := toggleAudio_frame s
  have ht2 := toggleAudio_frame (toggleAudio s).1
  refine ⟨⟨hm.1, hu.1, ht.1⟩, ⟨hm.2.1, hu.2.1, ht.2.1⟩,
    ⟨hm.2.2.1, hu.2.2.1, ht.2.2.1⟩, ⟨hm.2.2.2.1, hu.2.2.2.1, ht.2.2.2.1⟩,
    ⟨hm.2.2.2.2, hu.2.2.2.2, ht.2.2.2.2⟩,
    toggleAudio_twice_isAudioMuted s, ?_⟩
  rw [ht2.2.1, ht.2.1]

/-- A hook state with an open peer connection, a live local audio stream
and a `connected` connection state. -/
def sampleLiveState : HookState :=
  { initialState with
      peerConnection := some samplePCWithRemote
      localStream := some freshAudioStream
      connectionState := .connected }

/-- **C7** counterexample: calling `reconnect` on a connected state with a
live local stream stops the audio track and discards the stream (the
default `keepLocalStream = false` of `cleanupConnection` is used), and the
state ends at `idle`, not `connecting` — contradicting "keeping the local
media stream alive (its tracks are not stopped)" and "restarts the
connection process from the `connecting` state". -/
theorem C7_counterexample :
    (reconnect sampleLiveState).1.localStream = none ∧
    Action.stopTrack "audio" ∈ (reconnect sampleLiveState).2 ∧
    (reconnect sampleLiveState).1.connectionState = ConnState.idle ∧
    (reconnect sampleLiveState).1.connectionState ≠ ConnState.connecting := by
  decide

/-- **C7** (amended): manual `reconnect` tears down the peer-connection
handle (closing it when one exists) but also stops the local media tracks
and discards the local stream (`cleanupConnection` is invoked with its
default `keepLocalStream = false`); it resets the attempt counter, the
connection-attempted flag and the error, leaves the connection in `idle`,
and does not itself restart the connection (no offer is sent). -/
theorem C7_reconnect_teardown :
    ∀ s : HookState,
      (reconnect s).1.peerConnection = none ∧
      (reconnect s).1.localStream = none ∧
      (reconnect s).1.reconnectAttempts = 0 ∧
      (reconnect s).1.connectionAttempted = false ∧
      (reconnect s).1.error = none ∧
      (reconnect s).1.connectionState = ConnState.idle ∧
      (s.peerConnection.isSome = true → Action.closePC ∈ (reconnect s).2) ∧
      (∀ ts, s.localStream = some ts →
        ∀ t ∈ ts, Action.stopTrack t.kind ∈ (reconnect s).2) ∧
      Action.sendOffer ∉ (reconnect s).2 := by
  intro s
  unfold reconnect cleanupConnection
  cases hpc : s.peerConnection <;> cases hls : s.localStream <;>
    simp [hls] <;>
    exact fun t ht => ⟨t, ht, rfl⟩

/-- **C7** witness: the amended theorem at the concrete connected state. -/
theorem C7_witness :
    (reconnect sampleLiveState).1.peerConnection = none ∧
    Action.closePC ∈ (reconnect sampleLiveState).2 ∧
    Action.stopTrack "audio" ∈ (reconnect sampleLiveState).2 := by
  have h := C7_reconnect_teardown sampleLiveState
  refine ⟨h.1, h.2.2.2.2.2.2.1 rfl, ?_⟩
  have := h.2.2.2.2.2.2.2.1 freshAudioStream rfl
    { kind := "audio", enabled := true, stopped := false } (by decide)
  exact this

/-- **C8** counterexample: an error thrown while setting the remote
description in `handleIncomingOffer` (a negotiation error on the offer
path) is only logged: with the connection `connected` beforehand, the
connection state after the catch is still `connected` — neither `failed`
nor `reconnecting`, contradicting "every catch path deterministically
transitions the PeerLink's connection state to `failed` or re-enters
`reconnecting`". -/
theorem C8_counterexample :
    (handleIncomingOffer sampleLiveState { type := "offer", sdp := 5 }
        (some .setRemote)).1.connectionState = ConnState.connected ∧
    (handleIncomingOffer sampleLiveState { type := "offer", sdp := 5 }
        (some .setRemote)).1.connectionState ≠ ConnState.failed ∧
    (handleIncomingOffer sampleLiveState { type := "offer", sdp := 5 }
        (some .setRemote)).1.connectionState ≠ ConnState.reconnecting := by
  decide

/-- **C8** (amended): the catch paths are deterministic but do not all end
in `failed`/`reconnecting`: `handleIncomingOffer` leaves `connectionState`
and `error` untouched on every path (its catch only logs); `handleAnswer`'s
catch sets the error string but leaves `connectionState` untouched; and
`startConnection`'s catch sets `failed` but then `cleanupConnection()`
resets the state to `idle` and clears the error again. -/
theorem C8_catch_path_states :
    (∀ s offer fail,
      (handleIncomingOffer s offer fail).1.connectionState = s.connectionState ∧
      (handleIncomingOffer s offer fail).1.error = s.error) ∧
    (∀ s answer pc, s.peerConnection = some pc →
      (handleAnswer s answer false).1.connectionState = s.connectionState ∧
      (handleAnswer s answer false).1.error = some "Failed to handle answer") ∧
    (∀ s completeAt fl, s.wsClient = true →
      s.connectionState ≠ ConnState.connecting →
      s.peerConnection = none →
      (fl = StartFail.media → needsNewStream s = true) →
      (startConnection s completeAt (some fl)).1.connectionState = ConnState.idle ∧
      (startConnection s completeAt (some fl)).1.error = none) := by
  refine ⟨fun s offer fail => ?_, fun s answer pc hpc => ?_,
    fun s completeAt fl hws hcs hpc hfl => ?_⟩
  · match hpc : s.peerConnection with
    | none => simp [handleIncomingOffer, hpc]
    | some pc =>
      rcases fail with _ | (_ | _ | _ | _) <;>
        cases hp : s.isPolitePeer <;>
        cases hcol : (offer.type == "offer"
          && (s.makingOffer || pc.signalingState != "stable")) <;>
        cases hws : s.wsClient <;>
        simp [handleIncomingOffer, hpc, hp, hcol, hws]
  · simp [handleAnswer, hpc]
  · have hcs' : ({ s with connectionAttempted := true } : HookState).connectionState
        ≠ ConnState.connecting := hcs
    cases fl with
    | media =>
      have hns : needsNewStream s = true := hfl rfl
      cases hls : s.localStream with
      | none =>
        refine ⟨?_, ?_⟩ <;>
          simp [startConnection, hws, hcs', hpc, startConnectionTry,
            startConnectionCatch, cleanupConnection, needsNewStream, hls]
      | some ts =>
        simp only [needsNewStream, hls] at hns
        refine ⟨?_, ?_⟩ <;>
          simp [startConnection, hws, hcs', hpc, startConnectionTry,
            startConnectionCatch, cleanupConnection, needsNewStream, hls, hns]
    | createOffer =>
      refine ⟨?_, ?_⟩ <;>
        simp [startConnection, hws, hcs', hpc, startConnectionTry,
          startConnectionCatch, cleanupConnection]
    | setLocalOffer =>
      refine ⟨?_, ?_⟩ <;>
        simp [startConnection, hws, hcs', hpc, startConnectionTry,
          startConnectionCatch, cleanupConnection]
    | nullLocalDesc =>
      refine ⟨?_, ?_⟩ <;>
        simp [startConnection, hws, hcs', hpc, startConnectionTry,
          startConnectionCatch, cleanupConnection]

/-- **C8** witness: the amended theorem's three catch paths at concrete
inputs. -/
theorem C8_witness :
    (handleIncomingOffer sampleLiveState { type := "offer", sdp := 5 }
        (some .setRemote)).1.connectionState = sampleLiveState.connectionState ∧
    (handleAnswer sampleLiveState { type := "answer", sdp := 5 } false).1.error
        = some "Failed to handle answer" ∧
    (startConnection initialState (some 100) (some .createOffer)).1.connectionState
        = ConnState.idle :=
  ⟨(C8_catch_path_states.1 sampleLiveState { type := "offer", sdp := 5 }
      (some .setRemote)).1,
   (C8_catch_path_states.2.1 sampleLiveState { type := "answer", sdp := 5 }
      samplePCWithRemote rfl).2,
   (C8_catch_path_states.2.2 initialState (some 100) .createOffer rfl
      (by decide) rfl (fun h => by cases h)).1⟩

/-- **C9**: under the gather-before-send policy, the wait resolves at the
earlier of ICE-gathering completion and the (default 5000 ms) timeout —
so it always terminates within the timeout — and on the successful
`startConnection` path the offer is sent only after that wait. -/
theorem C9_gather_before_send :
    (∀ completeAt timeoutMs,
      waitForIceGatheringResolveMs completeAt timeoutMs ≤ timeoutMs) ∧
    (∀ t timeoutMs,
      waitForIceGatheringResolveMs (some t) timeoutMs = min t timeoutMs) ∧
    (∀ s completeAt, s.wsClient = true →
      s.connectionState ≠ ConnState.connecting →
      s.peerConnection = none →
      (startConnection s completeAt none).2
        = [Action.waitIce (waitForIceGatheringResolveMs completeAt 5000),
           Action.sendOffer] ∧
      waitForIceGatheringResolveMs completeAt 5000 ≤ 5000) := by
  refine ⟨fun completeAt timeoutMs => ?_, fun t timeoutMs => rfl,
    fun s completeAt hws hcs hpc => ⟨?_, ?_⟩⟩
  · cases completeAt <;> simp [waitForIceGatheringResolveMs]
  · have hcs' : ({ s with connectionAttempted := true } : HookState).connectionState
        ≠ ConnState.connecting := hcs
    cases hns : needsNewStream s <;>
      simp [startConnection, hws, hcs', hpc, startConnectionTry, hns,
        needsNewStream]
  · cases completeAt <;> simp [waitForIceGatheringResolveMs]

/-- **C9** witness: at the initial state with gathering completing at
1200 ms, the trace waits 1200 ms (≤ 5000) and only then sends the offer. -/
theorem C9_witness :
    (startConnection initialState (some 1200) none).2
      = [Action.waitIce 1200, Action.sendOffer] ∧
    waitForIceGatheringResolveMs (some 1200) 5000 ≤ 5000 := by
  have h := C9_gather_before_send.2.2 initialState (some 1200) rfl (by decide) rfl
  exact ⟨by rw [h.1]; rfl, h.2⟩

end WatchParty
